import Mathlib

/-!
Verification of the floportop feature-preprocessing, prediction and
similarity-search pipeline.

The development shallowly embeds the Python sources:
  * `Floportop.V5` embeds `src/src/floportop/preprocessing.py` (model v5):
    the 49-feature encoder `preprocess_single_movie` together with its
    helpers `create_budget_features` and `create_pca_features`.
  * `Floportop.Legacy` embeds the legacy package `src/floportop`
    (`preprocessing.py` and `model.py`): the 31-feature single-movie
    encoder, `predict` and `predict_movie`.
  * `Floportop.MovieSearch` embeds the flat inner-product index of
    `src/floportop/movie_search.py` and `src/api/movie_search.py`:
    `build_index`, `load_index` and the top-1 behaviour of `search`.

Numbers are rationals; the external artifacts (sentence embedder, PCA
transformer, the natural-log function `np.log1p`, the budget-median table,
the trained regressor) are injected as explicit parameters, mirroring the
spec, which treats them as opaque black boxes.
-/

namespace Floportop

/-- Characters-as-list test that `pat` is a prefix of `s`
(Python `str.startswith`, used to build the substring test below). -/
def charsPrefixB : List Char → List Char → Bool
  | [], _ => true
  | _ :: _, [] => false
  | a :: as, b :: bs => a == b && charsPrefixB as bs

/-- Characters-as-list test that `pat` occurs as a contiguous substring of
`s`: embeds the Python membership test `pat in s` and pandas
`Series.str.contains(pat, regex=False)`. -/
def charsInfixB (pat : List Char) : List Char → Bool
  | [] => charsPrefixB pat []
  | c :: rest => charsPrefixB pat (c :: rest) || charsInfixB pat rest

/-- Test that `pat` occurs as a case-sensitive literal substring of `s`
(pandas `s.str.contains(pat, regex=False)`). -/
def strContainsSub (s pat : String) : Bool :=
  charsInfixB pat.toList s.toList

/-- Python `s.split(sep)` for a one-character separator, on character
lists: always returns at least one piece, so `len("".split(",")) = 1`. -/
def splitChars (sep : Char) : List Char → List (List Char)
  | [] => [[]]
  | c :: cs =>
    let rest := splitChars sep cs
    if c = sep then [] :: rest
    else
      match rest with
      | [] => [[c]]
      | piece :: pieces => (c :: piece) :: pieces

/-- Python `str.strip()`: drop leading and trailing whitespace. -/
def pyStrip (s : String) : String :=
  String.mk (((s.toList.dropWhile Char.isWhitespace).reverse.dropWhile
    Char.isWhitespace).reverse)

/-- Python `dict.get(key)` on an association list with string keys. -/
def dictGetQ (d : List (String × ℚ)) (k : String) : Option ℚ :=
  (d.find? (fun p => p.1 == k)).map (fun p => p.2)

/-- Embeds `np.clip(x, lo, hi)`: `np.minimum(hi, np.maximum(lo, x))`. -/
def np_clip (x lo hi : ℚ) : ℚ := min hi (max lo x)

namespace V5

/-- Constant `CURRENT_YEAR = 2026`: frozen training-time constant of
`src/src/floportop/preprocessing.py`, not wall-clock time. -/
def CURRENT_YEAR : ℤ := 2026

/-- Constant `RUNTIME_CAP = 300` minutes. -/
def RUNTIME_CAP : ℤ := 300

/-- Constant `N_PCA_COMPONENTS = 20`. -/
def N_PCA_COMPONENTS : ℕ := 20

/-- The closed vocabulary of 22 genres (`VALID_GENRES`). -/
def VALID_GENRES : List String :=
  ["Drama", "Comedy", "Documentary", "Romance", "Action", "Crime",
   "Thriller", "Horror", "Adventure", "Mystery", "Family", "Biography",
   "Fantasy", "History", "Music", "Sci-Fi", "Musical", "War",
   "Animation", "Western", "Sport", "Adult"]

/-- Embeds `PCA_COLS`: the 20 names pca_0 .. pca_19. -/
def PCA_COLS : List String :=
  (List.range N_PCA_COMPONENTS).map (fun i => "pca_" ++ toString i)

/-- Embeds `FEATURE_ORDER_V5`: the fixed 49-name schema of model v5. -/
def FEATURE_ORDER_V5 : List String :=
  ["movie_age", "decade", "runtimeMinutes_capped", "genre_count", "isAdult",
   "Genre_Drama", "Genre_Comedy", "Genre_Documentary", "Genre_Romance",
   "Genre_Action", "Genre_Crime", "Genre_Thriller", "Genre_Horror",
   "Genre_Adventure", "Genre_Mystery", "Genre_Family", "Genre_Biography",
   "Genre_Fantasy", "Genre_History", "Genre_Music", "Genre_Sci-Fi",
   "Genre_Musical", "Genre_War", "Genre_Animation", "Genre_Western",
   "Genre_Sport", "Genre_Adult"]
  ++ PCA_COLS
  ++ ["log_budget", "has_budget"]

/-- The `movie_data` dict of `preprocess_single_movie`
(keys `startYear`, `runtimeMinutes`, `isAdult`, `genres`). -/
structure MovieData where
  startYear : ℤ
  runtimeMinutes : ℤ
  isAdult : ℤ
  genres : String

/-- The injected external artifacts of the v5 encoder: the sentence
embedder (`load_embedding_model`), the PCA transformer
(`load_pca_transformer`, 20 output components), the budget-median table
(`load_budget_medians`) and the real logarithm `np.log1p`. -/
structure Artifacts where
  embed : String → List ℚ
  pcaTransform : List ℚ → Fin N_PCA_COMPONENTS → ℚ
  budgetMedians : List (String × ℚ)
  log1p : ℚ → ℚ

/-- Embeds `df['movie_age'] = CURRENT_YEAR - df['startYear']`. -/
def movieAge (startYear : ℤ) : ℤ := CURRENT_YEAR - startYear

/-- Embeds `df['decade'] = df['startYear'] // 10 * 10` (Python floor division). -/
def decadeOf (startYear : ℤ) : ℤ := startYear.fdiv 10 * 10

/-- Embeds `df['runtimeMinutes'].clip(upper=RUNTIME_CAP)`. -/
def runtimeCapped (runtimeMinutes : ℤ) : ℤ := min runtimeMinutes RUNTIME_CAP

/-- Embeds `df['genre_count'] = df['genres'].str.split(',').str.len()`. -/
def genreCount (genres : String) : ℕ := (splitChars ',' genres.toList).length

/-- One genre column:
`df[f'Genre_{genre}'] = df['genres'].str.contains(genre, regex=False).astype(int)`. -/
def genreIndicator (genres g : String) : ℚ :=
  if strContainsSub genres g then 1 else 0

/-- The 22 genre one-hot columns in `VALID_GENRES` order. -/
def genreFeats (genres : String) : List ℚ :=
  VALID_GENRES.map (fun g => genreIndicator genres g)

/-- Embeds `create_pca_features`: embed the overview, then apply the PCA
transform; a 20-component vector. -/
def create_pca_features (a : Artifacts) (overview : String) :
    Fin N_PCA_COMPONENTS → ℚ :=
  a.pcaTransform (a.embed overview)

/-- The 20 PCA columns `pca_0 .. pca_19` of the output row. -/
def pcaFeats (a : Artifacts) (overview : String) : List ℚ :=
  (List.finRange N_PCA_COMPONENTS).map (create_pca_features a overview)

/-- The decade-median imputation value:
`budget_medians.get(str(int(decade)), budget_medians.get("default", 16.0))`. -/
def imputedLogBudget (a : Artifacts) (decade : ℤ) : ℚ :=
  (dictGetQ a.budgetMedians (toString decade)).getD
    ((dictGetQ a.budgetMedians "default").getD 16)

/-- Embeds `create_budget_features(budget, decade) -> (log_budget, has_budget)`. -/
def create_budget_features (a : Artifacts) (budget : Option ℚ) (decade : ℤ) :
    ℚ × ℤ :=
  match budget with
  | some b =>
    if 0 < b then (a.log1p b, 1)
    else (imputedLogBudget a decade, 0)
  | none => (imputedLogBudget a decade, 0)

/-- The one-row result `df[FEATURE_ORDER_V5]` of `preprocess_single_movie`
once validation has passed: the 5 scalar features, the 22 genre one-hots,
the 20 PCA components, then `log_budget` and `has_budget`. -/
def featureRow (a : Artifacts) (m : MovieData) (overview : String)
    (budget : Option ℚ) : List ℚ :=
  [(movieAge m.startYear : ℚ), (decadeOf m.startYear : ℚ),
   (runtimeCapped m.runtimeMinutes : ℚ), (genreCount m.genres : ℚ),
   (m.isAdult : ℚ)]
  ++ genreFeats m.genres
  ++ pcaFeats a overview
  ++ [(create_budget_features a budget (decadeOf m.startYear)).1,
      ((create_budget_features a budget (decadeOf m.startYear)).2 : ℚ)]

/-- Embeds `preprocess_single_movie(movie_data, overview, budget=None)`:
raises `ValueError` when `not overview or not overview.strip()`, else
returns the 49-feature row in `FEATURE_ORDER_V5` order. -/
def preprocess_single_movie (a : Artifacts) (m : MovieData)
    (overview : String) (budget : Option ℚ) : Except String (List ℚ) :=
  if overview = "" ∨ pyStrip overview = "" then
    Except.error "overview is required and cannot be empty"
  else
    Except.ok (featureRow a m overview budget)

/-- The value of the feature named `name` in the preprocessed row, as the
dataframe columns define it; `none` for a name outside the schema. -/
def featValue (a : Artifacts) (m : MovieData) (overview : String)
    (budget : Option ℚ) (name : String) : Option ℚ :=
  if name = "movie_age" then some (movieAge m.startYear : ℚ)
  else if name = "decade" then some (decadeOf m.startYear : ℚ)
  else if name = "runtimeMinutes_capped" then
    some (runtimeCapped m.runtimeMinutes : ℚ)
  else if name = "genre_count" then some (genreCount m.genres : ℚ)
  else if name = "isAdult" then some (m.isAdult : ℚ)
  else if name = "log_budget" then
    some (create_budget_features a budget (decadeOf m.startYear)).1
  else if name = "has_budget" then
    some ((create_budget_features a budget (decadeOf m.startYear)).2 : ℚ)
  else
    match VALID_GENRES.find? (fun g => name == "Genre_" ++ g) with
    | some g => some (genreIndicator m.genres g)
    | none =>
      match (List.finRange N_PCA_COMPONENTS).find?
          (fun i => name == "pca_" ++ toString i.val) with
      | some i => some (create_pca_features a overview i)
      | none => none

end V5

namespace Legacy

/-- Legacy `CURRENT_YEAR = 2026` (`src/floportop/preprocessing.py`). -/
def CURRENT_YEAR : ℤ := 2026

/-- Legacy `RUNTIME_CAP = 300`. -/
def RUNTIME_CAP : ℤ := 300

/-- Legacy `MEDIAN_NUM_VOTES = 85`. -/
def MEDIAN_NUM_VOTES : ℚ := 85

/-- Legacy `HIT_THRESHOLD = 648`. -/
def HIT_THRESHOLD : ℚ := 648

/-- Legacy `VALID_GENRES` (same 22 names as model v5). -/
def VALID_GENRES : List String :=
  ["Drama", "Comedy", "Documentary", "Romance", "Action", "Crime",
   "Thriller", "Horror", "Adventure", "Mystery", "Family", "Biography",
   "Fantasy", "History", "Music", "Sci-Fi", "Musical", "War",
   "Animation", "Western", "Sport", "Adult"]

/-- The `movie_data` dict of the legacy `preprocess_single_movie`:
`startYear`, `runtimeMinutes`, `isAdult`, `genres`, optional `numVotes`. -/
structure LegacyMovieData where
  startYear : ℤ
  runtimeMinutes : ℤ
  isAdult : ℤ
  genres : String
  numVotes : Option ℚ

/-- Legacy `preprocess_single_movie(movie_data)` — a ONE-parameter
function: median-imputes `numVotes`, then builds the 31-column row
`[isAdult, startYear, numVotes, genre_count, decade, movie_age,
runtimeMinutes_capped, log_numVotes, hit] + Genre_*`.
`log1p` injects `np.log1p`. -/
def preprocess_single_movie (log1p : ℚ → ℚ) (m : LegacyMovieData) : List ℚ :=
  let numVotes := m.numVotes.getD MEDIAN_NUM_VOTES
  [(m.isAdult : ℚ), (m.startYear : ℚ), numVotes,
   ((splitChars ',' m.genres.toList).length : ℚ),
   ((m.startYear.fdiv 10 * 10 : ℤ) : ℚ),
   ((CURRENT_YEAR - m.startYear : ℤ) : ℚ),
   ((min m.runtimeMinutes RUNTIME_CAP : ℤ) : ℚ),
   log1p numVotes,
   (if HIT_THRESHOLD ≤ numVotes then (1 : ℚ) else 0)]
  ++ VALID_GENRES.map (fun g => if strContainsSub m.genres g then (1 : ℚ) else 0)

/-- A Python positional argument, as passed at the call site
`preprocess_single_movie(movie_data, overview, budget)` in
`src/floportop/model.py`. -/
inductive PyArg
  | dict (m : LegacyMovieData)
  | str (s : String)
  | num (q : Option ℚ)

/-- Python call semantics for the legacy `preprocess_single_movie`: the
function binds exactly one positional parameter (`movie_data`), so any
other argument list raises `TypeError` at the call, before the body runs. -/
def callPreprocessSingleMovie (log1p : ℚ → ℚ) (args : List PyArg) :
    Except String (List ℚ) :=
  match args with
  | [PyArg.dict m] => Except.ok (preprocess_single_movie log1p m)
  | _ => Except.error
      "TypeError: preprocess_single_movie() takes 1 positional argument but 3 were given"

/-- Embeds `predict(features, model)` of `src/floportop/model.py`: delegates to
`model.predict(features)` and returns the raw result — NO clipping here. -/
def predict (model : List ℚ → ℚ) (features : List ℚ) : ℚ :=
  model features

/-- The tail of `predict_movie` (`model.py` lines 119-124) applied to an
already-preprocessed feature row: `prediction = model.predict(features)[0]`
then `np.clip(prediction, 1.0, 10.0)`. -/
def predict_movie_rating (model : List ℚ → ℚ) (features : List ℚ) : ℚ :=
  np_clip (model features) 1 10

/-- Embeds `predict_movie(movie_data, overview, budget, model)` of
`src/floportop/model.py`: invokes this module's `preprocess_single_movie`
with THREE positional arguments, then predicts and clips. -/
def predict_movie (log1p : ℚ → ℚ) (model : List ℚ → ℚ)
    (movie_data : LegacyMovieData) (overview : String) (budget : Option ℚ) :
    Except String ℚ :=
  match callPreprocessSingleMovie log1p
      [PyArg.dict movie_data, PyArg.str overview, PyArg.num budget] with
  | Except.error e => Except.error e
  | Except.ok features => Except.ok (np_clip (model features) 1 10)

end Legacy

namespace MovieSearch

/-- Inner product of two embedding vectors (rows of equal dimension;
`faiss.IndexFlatIP` similarity). -/
def innerQ (u v : List ℚ) : ℚ := (List.zipWith (fun a b => a * b) u v).sum

/-- Squared L2 norm: the self inner product. -/
def sqNormQ (v : List ℚ) : ℚ := innerQ v v

/-- A flat exact inner-product index: the stored corpus embeddings in row
order, plus the dimension `embeddings.shape[1]` it was created with. -/
structure FlatIPIndex where
  dim : ℕ
  vecs : List (List ℚ)

/-- Embeds `build_index`: `faiss.IndexFlatIP(embeddings.shape[1])` followed by
`index.add(embeddings)` — the index stores the rows in corpus order. -/
def build_index (embeddings : List (List ℚ)) : FlatIPIndex :=
  { dim := (embeddings.headD []).length, vecs := embeddings }

/-- The on-disk path of the serialized index artifact
(`INDEX_FAISS = MODELS_DIR / "index.faiss"`). -/
def INDEX_FAISS : String := "models/index.faiss"

/-- Embeds `load_index()`: `None` when the artifact file does not exist, else the
deserialized index. The filesystem is injected as a partial map from path
to stored index. -/
def load_index (fs : String → Option FlatIPIndex) : Option FlatIPIndex :=
  match fs INDEX_FAISS with
  | none => none
  | some idx => some idx

/-- The scan computing the best (highest-score) row of a score list,
starting at row number `k`: earliest row wins ties, as a linear argmax
scan over the flat index does. -/
def argmaxFrom : ℕ → List ℚ → Option (ℕ × ℚ)
  | _, [] => none
  | i, x :: xs =>
    match argmaxFrom (i + 1) xs with
    | none => some (i, x)
    | some (j, y) => if x < y then some (j, y) else some (i, x)

/-- The top-1 row of `index.search(query_embedding, k)`: the row position
and score of the corpus row with the highest inner product against the
query. -/
def searchTop1 (index : FlatIPIndex) (q : List ℚ) : Option (ℕ × ℚ) :=
  argmaxFrom 0 (index.vecs.map (fun v => innerQ q v))

end MovieSearch

end Floportop

namespace Floportop

/-- The boolean prefix test agrees with the list prefix relation. -/
lemma charsPrefixB_iff (p s : List Char) : charsPrefixB p s = true ↔ p <+: s := by
  induction p generalizing s with
  | nil => simp [charsPrefixB, List.nil_prefix]
  | cons a as ih =>
    cases s with
    | nil => simp [charsPrefixB, List.prefix_nil]
    | cons b bs =>
      simp [charsPrefixB, List.cons_prefix_cons, ih, Bool.and_eq_true, beq_iff_eq]

/-- The boolean substring test agrees with the list infix relation. -/
lemma charsInfixB_iff (p s : List Char) : charsInfixB p s = true ↔ p <:+: s := by
  induction s with
  | nil => simp [charsInfixB, charsPrefixB_iff, List.infix_nil, List.prefix_nil]
  | cons c cs ih =>
    simp [charsInfixB, Bool.or_eq_true, charsPrefixB_iff, ih, List.infix_cons_iff]

/-- A genre indicator is 1 exactly when the genre name occurs as a literal
substring of the genres string. -/
lemma genreIndicator_eq_one_iff (gs g : String) :
    V5.genreIndicator gs g = 1 ↔ g.toList <:+: gs.toList := by
  rw [← charsInfixB_iff]
  unfold V5.genreIndicator strContainsSub
  by_cases hb : charsInfixB g.toList gs.toList = true
  · simp [hb]
  · simp [hb]

/-- A genre indicator is 0 exactly when the genre name does not occur as a
literal substring of the genres string. -/
lemma genreIndicator_eq_zero_iff (gs g : String) :
    V5.genreIndicator gs g = 0 ↔ ¬ g.toList <:+: gs.toList := by
  rw [← charsInfixB_iff]
  unfold V5.genreIndicator strContainsSub
  by_cases hb : charsInfixB g.toList gs.toList = true
  · simp [hb]
  · simp [hb]

/-- Stripping the empty string gives the empty string. -/
lemma pyStrip_empty : pyStrip "" = "" := rfl

/-- When the overview passes validation, the v5 encoder returns the feature
row. -/
lemma preprocess_v5_ok (a : V5.Artifacts) (m : V5.MovieData) (overview : String)
    (budget : Option ℚ) (h : pyStrip overview ≠ "") :
    V5.preprocess_single_movie a m overview budget =
      Except.ok (V5.featureRow a m overview budget) := by
  unfold V5.preprocess_single_movie
  rw [if_neg]
  rintro (rfl | hw)
  · exact h rfl
  · exact h hw

/-- A single non-whitespace character survives `pyStrip` unchanged. -/
lemma pyStrip_single (c : Char) (hc : ¬ c.isWhitespace) :
    pyStrip (String.mk [c]) = String.mk [c] := by
  simp [pyStrip, List.dropWhile, hc]

/-- A one-character string is not the empty string. -/
lemma stringMk_single_ne_empty (c : Char) : String.mk [c] ≠ "" := by
  intro h
  have h2 := congrArg String.toList h
  simp [String.toList] at h2

end Floportop

namespace Floportop

namespace MovieSearch

/-- The value returned by the argmax scan is one of the scores scanned. -/
lemma argmaxFrom_val_mem :
    ∀ (l : List ℚ) (k j : ℕ) (y : ℚ), argmaxFrom k l = some (j, y) → y ∈ l := by
  intro l
  induction l with
  | nil => intro k j y h; simp [argmaxFrom] at h
  | cons x xs ih =>
    intro k j y h
    have hshow : argmaxFrom k (x :: xs) =
        match argmaxFrom (k + 1) xs with
        | none => some (k, x)
        | some (j, y) => if x < y then some (j, y) else some (k, x) := rfl
    rw [hshow] at h
    rcases hrec : argmaxFrom (k + 1) xs with _ | ⟨j0, y0⟩
    · rw [hrec] at h
      have h2 : some (k, x) = some (j, y) := h
      simp only [Option.some.injEq, Prod.mk.injEq] at h2
      rw [← h2.2]
      exact List.mem_cons_self x xs
    · rw [hrec] at h
      have h2 : (if x < y0 then some (j0, y0) else some (k, x)) = some (j, y) := h
      by_cases hlt : x < y0
      · rw [if_pos hlt] at h2
        simp only [Option.some.injEq, Prod.mk.injEq] at h2
        rw [← h2.2]
        exact List.mem_cons_of_mem x (ih (k + 1) j0 y0 hrec)
      · rw [if_neg hlt] at h2
        simp only [Option.some.injEq, Prod.mk.injEq] at h2
        rw [← h2.2]
        exact List.mem_cons_self x xs

/-- When position `i` of the score list strictly dominates every other
position, the argmax scan starting at row `k` returns row `k + i` with that
score. -/
lemma argmaxFrom_eq_of_max :
    ∀ (l : List ℚ) (i : ℕ) (mx : ℚ) (k : ℕ),
      l.get? i = some mx →
      (∀ j y, l.get? j = some y → j ≠ i → y < mx) →
      argmaxFrom k l = some (k + i, mx) := by
  intro l
  induction l with
  | nil => intro i mx k h hmax; simp at h
  | cons x xs ih =>
    intro i mx k hget hmax
    have hshow : argmaxFrom k (x :: xs) =
        match argmaxFrom (k + 1) xs with
        | none => some (k, x)
        | some (j, y) => if x < y then some (j, y) else some (k, x) := rfl
    cases i with
    | zero =>
      have hx : x = mx := by simpa using hget
      subst hx
      have hxs : ∀ j y, xs.get? j = some y → y < x := by
        intro j y hj
        exact hmax (j + 1) y (by simpa using hj) (by omega)
      rcases hrec : argmaxFrom (k + 1) xs with _ | ⟨j0, y0⟩
      · rw [hshow, hrec]
        show some (k, x) = some (k + 0, x)
        simp
      · have hy0 : y0 ∈ xs := argmaxFrom_val_mem xs (k + 1) j0 y0 hrec
        obtain ⟨n, hn⟩ := List.mem_iff_get?.mp hy0
        have hlt : y0 < x := hxs n y0 hn
        rw [hshow, hrec]
        show (if x < y0 then some (j0, y0) else some (k, x)) = some (k + 0, x)
        rw [if_neg (not_lt.mpr (le_of_lt hlt))]
        simp
    | succ n =>
      have hget2 : xs.get? n = some mx := by simpa using hget
      have hmax2 : ∀ j y, xs.get? j = some y → j ≠ n → y < mx := by
        intro j y hj hne
        exact hmax (j + 1) y (by simpa using hj) (by omega)
      have hrec := ih n mx (k + 1) hget2 hmax2
      have hxlt : x < mx := hmax 0 x (by simp) (by omega)
      rw [hshow, hrec]
      show (if x < mx then some (k + 1 + n, mx) else some (k, x)) = some (k + (n + 1), mx)
      rw [if_pos hxlt]
      have harith : k + 1 + n = k + (n + 1) := by omega
      rw [harith]

/-- Strict two-sided bound: for vectors of equal dimension that are not
equal, twice their inner product is strictly below the sum of their squared
norms. -/
lemma two_innerQ_lt (u : List ℚ) :
    ∀ v : List ℚ, u.length = v.length → u ≠ v →
      2 * innerQ u v < sqNormQ u + sqNormQ v := by
  induction u with
  | nil =>
    intro v hlen hne
    cases v with
    | nil => exact absurd rfl hne
    | cons b bs => simp at hlen
  | cons a as ih =>
    intro v hlen hne
    cases v with
    | nil => simp at hlen
    | cons b bs =>
      have hlen2 : as.length = bs.length := by simpa using hlen
      have hinner : innerQ (a :: as) (b :: bs) = a * b + innerQ as bs := by
        simp [innerQ]
      have hsu : sqNormQ (a :: as) = a * a + sqNormQ as := by
        simp [sqNormQ, innerQ]
      have hsv : sqNormQ (b :: bs) = b * b + sqNormQ bs := by
        simp [sqNormQ, innerQ]
      by_cases hab : a = b
      · subst hab
        have htail : as ≠ bs := by
          intro h2
          exact hne (by rw [h2])
        have hlt := ih bs hlen2 htail
        rw [hinner, hsu, hsv]
        nlinarith [hlt]
      · have hweak : 2 * innerQ as bs ≤ sqNormQ as + sqNormQ bs := by
          by_cases h2 : as = bs
          · subst h2
            have hdiag : sqNormQ as = innerQ as as := rfl
            linarith [hdiag]
          · exact le_of_lt (ih bs hlen2 h2)
        have hpos : 0 < (a - b) * (a - b) :=
          mul_self_pos.mpr (sub_ne_zero.mpr hab)
        rw [hinner, hsu, hsv]
        nlinarith [hweak, hpos]

end MovieSearch

end Floportop

namespace Floportop

/-- Concrete artifacts used by the witnesses: a stub embedder and PCA
transform, a one-entry budget-median table, a stub logarithm. -/
def arts0 : V5.Artifacts :=
  { embed := fun _ => [], pcaTransform := fun _ _ => 0,
    budgetMedians := [("2020", 17)], log1p := fun _ => 0 }

/-- Concrete movie input used by the witnesses. -/
def movie0 : V5.MovieData :=
  { startYear := 2024, runtimeMinutes := 148, isAdult := 0,
    genres := "Action,Sci-Fi" }

/-- C1: for every valid input (any artifacts, any movie data, an overview
that survives stripping, an optional budget), `preprocess_single_movie`
returns a row of exactly 49 features, and that row lists, in the exact
order of the `FEATURE_ORDER_V5` schema (5 scalars, then the 22 genre
one-hot indicators in `VALID_GENRES` order, then `pca_0 .. pca_19`, then
`log_budget` and `has_budget`), precisely the value of each named
feature. -/
theorem preprocess_v5_schema (a : V5.Artifacts) (m : V5.MovieData)
    (overview : String) (budget : Option ℚ) (h : pyStrip overview ≠ "") :
    ∃ out, V5.preprocess_single_movie a m overview budget = Except.ok out ∧
      out.length = 49 ∧ V5.FEATURE_ORDER_V5.length = 49 ∧
      out = V5.FEATURE_ORDER_V5.filterMap (V5.featValue a m overview budget) :=
  ⟨V5.featureRow a m overview budget, preprocess_v5_ok a m overview budget h,
    rfl, rfl, rfl⟩

/-- Witness for C1 at concrete input. -/
theorem preprocess_v5_schema_witness :
    ∃ out, V5.preprocess_single_movie arts0 movie0 "A space adventure." none =
        Except.ok out ∧
      out.length = 49 ∧ V5.FEATURE_ORDER_V5.length = 49 ∧
      out = V5.FEATURE_ORDER_V5.filterMap
        (V5.featValue arts0 movie0 "A space adventure." none) :=
  preprocess_v5_schema arts0 movie0 "A space adventure." none (by decide)

end Floportop

namespace Floportop

/-- C3: a genre one-hot indicator is 1 exactly when the genre name occurs
as a case-sensitive literal substring of the genres string (and 0 exactly
otherwise); the input genres "Action,Sci-Fi" sets Genre_Action and
Genre_Sci-Fi to 1 with all other indicators 0 and genre_count 2, while the
input genres "Musical" sets both Genre_Musical and Genre_Music to 1
(substring double-count). -/
theorem genre_onehot_substring :
    (∀ gs g : String,
      (V5.genreIndicator gs g = 1 ↔ g.toList <:+: gs.toList) ∧
      (V5.genreIndicator gs g = 0 ↔ ¬ g.toList <:+: gs.toList)) ∧
    V5.genreFeats "Action,Sci-Fi" =
      [0, 0, 0, 0, 1, 0, 0, 0, 0, 0, 0, 0, 0, 0, 0, 1, 0, 0, 0, 0, 0, 0] ∧
    V5.genreCount "Action,Sci-Fi" = 2 ∧
    V5.genreIndicator "Musical" "Musical" = 1 ∧
    V5.genreIndicator "Musical" "Music" = 1 ∧
    V5.genreFeats "Musical" =
      [0, 0, 0, 0, 0, 0, 0, 0, 0, 0, 0, 0, 0, 0, 1, 0, 1, 0, 0, 0, 0, 0] := by
  refine ⟨fun gs g => ⟨genreIndicator_eq_one_iff gs g, genreIndicator_eq_zero_iff gs g⟩,
    by decide, by decide, by decide, by decide, by decide⟩

/-- C4: the budget features follow the imputation policy: a provided
positive budget gives `log_budget = log1p(budget)` and `has_budget = 1`;
a missing or nonpositive budget gives `has_budget = 0` and `log_budget`
looked up in the median table under the decade string key, falling back to
the table's "default" entry (then 16.0); a movie with `startYear = 2024`
and no budget uses the "2020" decade key. -/
theorem budget_feature_policy (a : V5.Artifacts) (decade : ℤ) :
    (∀ b : ℚ, 0 < b →
      V5.create_budget_features a (some b) decade = (a.log1p b, 1)) ∧
    V5.create_budget_features a none decade = (V5.imputedLogBudget a decade, 0) ∧
    (∀ b : ℚ, ¬ 0 < b →
      V5.create_budget_features a (some b) decade = (V5.imputedLogBudget a decade, 0)) ∧
    V5.imputedLogBudget a decade =
      (dictGetQ a.budgetMedians (toString decade)).getD
        ((dictGetQ a.budgetMedians "default").getD 16) ∧
    (dictGetQ a.budgetMedians (toString decade) = none →
      V5.imputedLogBudget a decade = (dictGetQ a.budgetMedians "default").getD 16) ∧
    V5.decadeOf 2024 = 2020 ∧ toString (V5.decadeOf 2024) = "2020" ∧
    (∀ (m : V5.MovieData) (overview : String), m.startYear = 2024 →
      pyStrip overview ≠ "" →
      ∃ out, V5.preprocess_single_movie a m overview none = Except.ok out ∧
        out.get? 47 = some (V5.imputedLogBudget a 2020) ∧
        out.get? 48 = some 0) := by
  refine ⟨?_, rfl, ?_, rfl, ?_, by decide, by decide, ?_⟩
  · intro b hb
    simp [V5.create_budget_features, hb]
  · intro b hb
    simp [V5.create_budget_features, hb]
  · intro hnone
    rw [V5.imputedLogBudget, hnone]
    rfl
  · intro m overview hy h
    refine ⟨V5.featureRow a m overview none, preprocess_v5_ok a m overview none h, ?_, ?_⟩
    · have h1 : (V5.featureRow a m overview none).get? 47 =
          some (V5.create_budget_features a none (V5.decadeOf m.startYear)).1 := rfl
      rw [h1, hy]
      have hdec : V5.decadeOf 2024 = 2020 := by decide
      rw [hdec]
      rfl
    · have h1 : (V5.featureRow a m overview none).get? 48 =
          some ((V5.create_budget_features a none (V5.decadeOf m.startYear)).2 : ℚ) := rfl
      rw [h1, hy]
      have hdec : V5.decadeOf 2024 = 2020 := by decide
      rw [hdec]
      norm_num [V5.create_budget_features]

end Floportop

namespace Floportop

/-- C5: the v5 encoder fails with the `ValueError` message exactly when the
overview is empty or whitespace-only, and succeeds for any one-character
overview whose character is not whitespace. -/
theorem overview_validation (a : V5.Artifacts) (m : V5.MovieData)
    (budget : Option ℚ) :
    (∀ overview : String,
      V5.preprocess_single_movie a m overview budget =
          Except.error "overview is required and cannot be empty" ↔
        (overview = "" ∨ pyStrip overview = "")) ∧
    (∀ c : Char, ¬ c.isWhitespace →
      ∃ out, V5.preprocess_single_movie a m (String.mk [c]) budget =
        Except.ok out) := by
  constructor
  · intro overview
    unfold V5.preprocess_single_movie
    by_cases hcond : overview = "" ∨ pyStrip overview = ""
    · simp [hcond]
    · simp [hcond]
  · intro c hc
    refine ⟨V5.featureRow a m (String.mk [c]) budget,
      preprocess_v5_ok a m (String.mk [c]) budget ?_⟩
    rw [pyStrip_single c hc]
    exact stringMk_single_ne_empty c

/-- C8: for every valid input the first three output features are
`movie_age = CURRENT_YEAR - startYear` with `CURRENT_YEAR` the frozen
constant 2026, `decade = startYear // 10 * 10` (the floor of the year to
its decade: a multiple of 10 within 10 of the year, with 2024 giving 2020
and 1999 giving 1990), and `runtimeMinutes_capped = min(runtimeMinutes,
300)` (1000 caps to 300 and 50 is unchanged). -/
theorem temporal_runtime_features (a : V5.Artifacts) (m : V5.MovieData)
    (overview : String) (budget : Option ℚ) (h : pyStrip overview ≠ "") :
    V5.CURRENT_YEAR = 2026 ∧
    (∃ out, V5.preprocess_single_movie a m overview budget = Except.ok out ∧
      out.get? 0 = some ((V5.CURRENT_YEAR - m.startYear : ℤ) : ℚ) ∧
      out.get? 1 = some ((V5.decadeOf m.startYear : ℤ) : ℚ) ∧
      out.get? 2 = some ((min m.runtimeMinutes 300 : ℤ) : ℚ)) ∧
    V5.decadeOf m.startYear ≤ m.startYear ∧
    m.startYear < V5.decadeOf m.startYear + 10 ∧
    (10 : ℤ) ∣ V5.decadeOf m.startYear ∧
    V5.decadeOf 2024 = 2020 ∧ V5.decadeOf 1999 = 1990 ∧
    V5.runtimeCapped 1000 = 300 ∧ V5.runtimeCapped 50 = 50 := by
  have hfd : V5.decadeOf m.startYear = m.startYear / 10 * 10 := by
    rw [V5.decadeOf, Int.fdiv_eq_ediv _ (by norm_num)]
  refine ⟨rfl,
    ⟨V5.featureRow a m overview budget, preprocess_v5_ok a m overview budget h,
      rfl, rfl, rfl⟩,
    ?_, ?_, ?_, by decide, by decide, by decide, by decide⟩
  · rw [hfd]
    exact Int.ediv_mul_le m.startYear (by norm_num)
  · rw [hfd]
    have hlt := Int.lt_ediv_add_one_mul_self m.startYear (b := 10) (by norm_num)
    linarith [hlt]
  · exact dvd_mul_left 10 (m.startYear.fdiv 10)

/-- Witness for C8 at concrete input. -/
theorem temporal_runtime_features_witness :
    V5.CURRENT_YEAR = 2026 ∧
    (∃ out, V5.preprocess_single_movie arts0 movie0 "A space adventure." none =
        Except.ok out ∧
      out.get? 0 = some ((V5.CURRENT_YEAR - movie0.startYear : ℤ) : ℚ) ∧
      out.get? 1 = some ((V5.decadeOf movie0.startYear : ℤ) : ℚ) ∧
      out.get? 2 = some ((min movie0.runtimeMinutes 300 : ℤ) : ℚ)) ∧
    V5.decadeOf movie0.startYear ≤ movie0.startYear ∧
    movie0.startYear < V5.decadeOf movie0.startYear + 10 ∧
    (10 : ℤ) ∣ V5.decadeOf movie0.startYear ∧
    V5.decadeOf 2024 = 2020 ∧ V5.decadeOf 1999 = 1990 ∧
    V5.runtimeCapped 1000 = 300 ∧ V5.runtimeCapped 50 = 50 :=
  temporal_runtime_features arts0 movie0 "A space adventure." none (by decide)

end Floportop

namespace Floportop

/-- The `has_budget` flag computed by `create_budget_features` does not
depend on the decade used for imputation, only on the budget. -/
lemma create_budget_features_snd (a : V5.Artifacts) (budget : Option ℚ)
    (d1 d2 : ℤ) :
    (V5.create_budget_features a budget d1).2 =
      (V5.create_budget_features a budget d2).2 := by
  cases budget with
  | none => rfl
  | some b =>
    by_cases hb : 0 < b
    · simp [V5.create_budget_features, hb]
    · simp [V5.create_budget_features, hb]

/-- C9 (frame): for every pair of valid inputs that differ only in one
input field, the encoded vectors differ at most in the features logically
derived from that field. Positionally (0-indexed): changing only the
budget leaves the first 47 features (the scalars, genre one-hots and PCA
components) unchanged; changing only the overview leaves features 0-26 and
47-48 unchanged; changing only runtimeMinutes leaves every feature except
runtimeMinutes_capped (2) unchanged; changing only isAdult leaves every
feature except isAdult (4) unchanged; changing only the genres string
leaves every feature except genre_count (3) and the 22 one-hots (5-26)
unchanged; changing only startYear leaves features 2-46 and has_budget
(48) unchanged (movie_age, decade, and the decade-imputed log_budget are
derived from it). -/
theorem preprocess_frame (a : V5.Artifacts) :
    (∀ (m : V5.MovieData) (overview : String) (b1 b2 : Option ℚ),
      pyStrip overview ≠ "" →
      ∃ out1 out2,
        V5.preprocess_single_movie a m overview b1 = Except.ok out1 ∧
        V5.preprocess_single_movie a m overview b2 = Except.ok out2 ∧
        out1.length = 49 ∧ out2.length = 49 ∧
        out1.take 47 = out2.take 47) ∧
    (∀ (m : V5.MovieData) (o1 o2 : String) (budget : Option ℚ),
      pyStrip o1 ≠ "" → pyStrip o2 ≠ "" →
      ∃ out1 out2,
        V5.preprocess_single_movie a m o1 budget = Except.ok out1 ∧
        V5.preprocess_single_movie a m o2 budget = Except.ok out2 ∧
        out1.take 27 = out2.take 27 ∧ out1.drop 47 = out2.drop 47) ∧
    (∀ (sy r1 r2 ad : ℤ) (gs overview : String) (budget : Option ℚ),
      pyStrip overview ≠ "" →
      ∃ out1 out2,
        V5.preprocess_single_movie a ⟨sy, r1, ad, gs⟩ overview budget =
          Except.ok out1 ∧
        V5.preprocess_single_movie a ⟨sy, r2, ad, gs⟩ overview budget =
          Except.ok out2 ∧
        out1.take 2 = out2.take 2 ∧ out1.drop 3 = out2.drop 3) ∧
    (∀ (sy r ad1 ad2 : ℤ) (gs overview : String) (budget : Option ℚ),
      pyStrip overview ≠ "" →
      ∃ out1 out2,
        V5.preprocess_single_movie a ⟨sy, r, ad1, gs⟩ overview budget =
          Except.ok out1 ∧
        V5.preprocess_single_movie a ⟨sy, r, ad2, gs⟩ overview budget =
          Except.ok out2 ∧
        out1.take 4 = out2.take 4 ∧ out1.drop 5 = out2.drop 5) ∧
    (∀ (sy r ad : ℤ) (gs1 gs2 overview : String) (budget : Option ℚ),
      pyStrip overview ≠ "" →
      ∃ out1 out2,
        V5.preprocess_single_movie a ⟨sy, r, ad, gs1⟩ overview budget =
          Except.ok out1 ∧
        V5.preprocess_single_movie a ⟨sy, r, ad, gs2⟩ overview budget =
          Except.ok out2 ∧
        out1.take 3 = out2.take 3 ∧ out1.get? 4 = out2.get? 4 ∧
        out1.drop 27 = out2.drop 27) ∧
    (∀ (sy1 sy2 r ad : ℤ) (gs overview : String) (budget : Option ℚ),
      pyStrip overview ≠ "" →
      ∃ out1 out2,
        V5.preprocess_single_movie a ⟨sy1, r, ad, gs⟩ overview budget =
          Except.ok out1 ∧
        V5.preprocess_single_movie a ⟨sy2, r, ad, gs⟩ overview budget =
          Except.ok out2 ∧
        (out1.drop 2).take 45 = (out2.drop 2).take 45 ∧
        out1.get? 48 = out2.get? 48) := by
  refine ⟨?_, ?_, ?_, ?_, ?_, ?_⟩
  · intro m overview b1 b2 h
    exact ⟨V5.featureRow a m overview b1, V5.featureRow a m overview b2,
      preprocess_v5_ok a m overview b1 h, preprocess_v5_ok a m overview b2 h,
      rfl, rfl, rfl⟩
  · intro m o1 o2 budget h1 h2
    exact ⟨V5.featureRow a m o1 budget, V5.featureRow a m o2 budget,
      preprocess_v5_ok a m o1 budget h1, preprocess_v5_ok a m o2 budget h2,
      rfl, rfl⟩
  · intro sy r1 r2 ad gs overview budget h
    exact ⟨V5.featureRow a ⟨sy, r1, ad, gs⟩ overview budget,
      V5.featureRow a ⟨sy, r2, ad, gs⟩ overview budget,
      preprocess_v5_ok a ⟨sy, r1, ad, gs⟩ overview budget h,
      preprocess_v5_ok a ⟨sy, r2, ad, gs⟩ overview budget h,
      rfl, rfl⟩
  · intro sy r ad1 ad2 gs overview budget h
    exact ⟨V5.featureRow a ⟨sy, r, ad1, gs⟩ overview budget,
      V5.featureRow a ⟨sy, r, ad2, gs⟩ overview budget,
      preprocess_v5_ok a ⟨sy, r, ad1, gs⟩ overview budget h,
      preprocess_v5_ok a ⟨sy, r, ad2, gs⟩ overview budget h,
      rfl, rfl⟩
  · intro sy r ad gs1 gs2 overview budget h
    exact ⟨V5.featureRow a ⟨sy, r, ad, gs1⟩ overview budget,
      V5.featureRow a ⟨sy, r, ad, gs2⟩ overview budget,
      preprocess_v5_ok a ⟨sy, r, ad, gs1⟩ overview budget h,
      preprocess_v5_ok a ⟨sy, r, ad, gs2⟩ overview budget h,
      rfl, rfl, rfl⟩
  · intro sy1 sy2 r ad gs overview budget h
    refine ⟨V5.featureRow a ⟨sy1, r, ad, gs⟩ overview budget,
      V5.featureRow a ⟨sy2, r, ad, gs⟩ overview budget,
      preprocess_v5_ok a ⟨sy1, r, ad, gs⟩ overview budget h,
      preprocess_v5_ok a ⟨sy2, r, ad, gs⟩ overview budget h,
      rfl, ?_⟩
    have h48 : ∀ sy : ℤ,
        (V5.featureRow a ⟨sy, r, ad, gs⟩ overview budget).get? 48 =
          some ((V5.create_budget_features a budget (V5.decadeOf sy)).2 : ℚ) :=
      fun _ => rfl
    rw [h48 sy1, h48 sy2,
      create_budget_features_snd a budget (V5.decadeOf sy1) (V5.decadeOf sy2)]

/-- C2 counterexample: `predict` itself does not clip: a model returning
12.0 on a 49-feature vector makes `predict` return 12.0 (above 10), and a
model returning -3.0 makes it return -3.0 (below 1). -/
theorem predict_unclipped_counterexample :
    Legacy.predict (fun _ => (12 : ℚ)) (List.replicate 49 0) = 12 ∧
    ¬ Legacy.predict (fun _ => (12 : ℚ)) (List.replicate 49 0) ≤ 10 ∧
    Legacy.predict (fun _ => (-3 : ℚ)) (List.replicate 49 0) = -3 ∧
    ¬ (1 : ℚ) ≤ Legacy.predict (fun _ => (-3 : ℚ)) (List.replicate 49 0) := by
  refine ⟨rfl, by norm_num [Legacy.predict], rfl, by norm_num [Legacy.predict]⟩

/-- C2 amended: the clipping step at the end of `predict_movie` maps every
raw model output on every feature vector into [1.0, 10.0]: outputs below 1
become 1 and outputs above 10 become 10 (so raw -3.0 gives 1.0 and raw
12.0 gives 10.0), while `predict` alone returns the raw model output. -/
theorem predict_movie_clip_range (model : List ℚ → ℚ) (features : List ℚ) :
    1 ≤ Legacy.predict_movie_rating model features ∧
    Legacy.predict_movie_rating model features ≤ 10 ∧
    (model features < 1 → Legacy.predict_movie_rating model features = 1) ∧
    (10 < model features → Legacy.predict_movie_rating model features = 10) ∧
    Legacy.predict_movie_rating model features =
      np_clip (Legacy.predict model features) 1 10 ∧
    Legacy.predict_movie_rating (fun _ => (-3 : ℚ)) (List.replicate 49 0) = 1 ∧
    Legacy.predict_movie_rating (fun _ => (12 : ℚ)) (List.replicate 49 0) = 10 := by
  refine ⟨?_, ?_, ?_, ?_, rfl, ?_, ?_⟩
  · exact le_min (by norm_num) (le_max_left 1 (model features))
  · exact min_le_left 10 _
  · intro hlt
    unfold Legacy.predict_movie_rating np_clip
    rw [max_eq_left (le_of_lt hlt), min_eq_right (by norm_num)]
  · intro hgt
    unfold Legacy.predict_movie_rating np_clip
    rw [max_eq_right (by linarith), min_eq_left (le_of_lt hgt)]
  · norm_num [Legacy.predict_movie_rating, np_clip]
  · norm_num [Legacy.predict_movie_rating, np_clip]

/-- C10: the legacy `predict_movie` passes three positional arguments to
its module's one-parameter `preprocess_single_movie`, so for every input it
fails with a `TypeError` and can never produce a rating. -/
theorem legacy_predict_movie_type_error (log1p : ℚ → ℚ) (model : List ℚ → ℚ)
    (movie_data : Legacy.LegacyMovieData) (overview : String)
    (budget : Option ℚ) :
    Legacy.predict_movie log1p model movie_data overview budget =
      Except.error
        "TypeError: preprocess_single_movie() takes 1 positional argument but 3 were given" ∧
    ∀ r : ℚ,
      Legacy.predict_movie log1p model movie_data overview budget ≠
        Except.ok r := by
  refine ⟨rfl, ?_⟩
  intro r h
  have h2 : Except.error (ε := String)
      "TypeError: preprocess_single_movie() takes 1 positional argument but 3 were given" =
      Except.ok r := by
    rw [← h]
    rfl
  exact Except.noConfusion h2

end Floportop

namespace Floportop

/-- C6 counterexample: a corpus of two identical unit vectors is a corpus
of L2-normalized embeddings, yet querying with the vector at row 1 returns
row 0 (the earliest duplicate), not row 1, as top-1. -/
theorem search_roundtrip_duplicate_counterexample :
    (∀ v ∈ [[(1 : ℚ)], [(1 : ℚ)]], MovieSearch.sqNormQ v = 1) ∧
    [[(1 : ℚ)], [(1 : ℚ)]].get? 1 = some [(1 : ℚ)] ∧
    MovieSearch.searchTop1 (MovieSearch.build_index [[(1 : ℚ)], [(1 : ℚ)]])
        [(1 : ℚ)] = some (0, 1) ∧
    MovieSearch.searchTop1 (MovieSearch.build_index [[(1 : ℚ)], [(1 : ℚ)]])
        [(1 : ℚ)] ≠ some (1, 1) := by
  have hval : MovieSearch.searchTop1
      (MovieSearch.build_index [[(1 : ℚ)], [(1 : ℚ)]]) [(1 : ℚ)] = some (0, 1) := by
    norm_num [MovieSearch.searchTop1, MovieSearch.build_index,
      MovieSearch.argmaxFrom, MovieSearch.innerQ]
  refine ⟨?_, by decide, hval, ?_⟩
  · norm_num [MovieSearch.sqNormQ, MovieSearch.innerQ]
  · rw [hval]
    decide

/-- C6 amended: building the flat inner-product index from a corpus of
same-dimension L2-normalized embeddings and querying with the corpus
vector at row `i` returns row `i` as the top-1 result with score exactly 1,
provided no other corpus row holds that same vector (a duplicated query
vector instead returns the earliest duplicate row). -/
theorem search_roundtrip (corpus : List (List ℚ)) (d i : ℕ) (q : List ℚ)
    (hlen : ∀ v ∈ corpus, v.length = d)
    (hnorm : ∀ v ∈ corpus, MovieSearch.sqNormQ v = 1)
    (hq : corpus.get? i = some q)
    (huniq : ∀ j, j < corpus.length → j ≠ i → corpus.get? j ≠ some q) :
    MovieSearch.searchTop1 (MovieSearch.build_index corpus) q = some (i, 1) := by
  have hqmem : q ∈ corpus := List.get?_mem hq
  have hq1 : MovieSearch.innerQ q q = 1 := hnorm q hqmem
  have hscore_i : (corpus.map (fun v => MovieSearch.innerQ q v)).get? i =
      some 1 := by
    rw [List.get?_map, hq, Option.map_some']
    exact congrArg some hq1
  have hscore_lt : ∀ j y,
      (corpus.map (fun v => MovieSearch.innerQ q v)).get? j = some y →
      j ≠ i → y < 1 := by
    intro j y hj hne
    rw [List.get?_map] at hj
    rcases hw : corpus.get? j with _ | w
    · rw [hw] at hj
      simp at hj
    · rw [hw, Option.map_some'] at hj
      have hyw : y = MovieSearch.innerQ q w := by
        simpa using hj.symm
      have hjlt : j < corpus.length := by
        obtain ⟨hlt, -⟩ := List.get?_eq_some.mp hw
        exact hlt
      have hwq : q ≠ w := by
        intro hcontra
        exact huniq j hjlt hne (by rw [hw, hcontra])
      have hwmem : w ∈ corpus := List.get?_mem hw
      have h2 : 2 * MovieSearch.innerQ q w <
          MovieSearch.sqNormQ q + MovieSearch.sqNormQ w := by
        apply MovieSearch.two_innerQ_lt
        · rw [hlen q hqmem, hlen w hwmem]
        · exact hwq
      rw [hnorm q hqmem, hnorm w hwmem] at h2
      rw [hyw]
      linarith [h2]
  have hmain := MovieSearch.argmaxFrom_eq_of_max
    (corpus.map (fun v => MovieSearch.innerQ q v)) i 1 0 hscore_i hscore_lt
  rw [MovieSearch.searchTop1]
  show MovieSearch.argmaxFrom 0 (corpus.map (fun v => MovieSearch.innerQ q v)) =
    some (i, 1)
  rw [hmain]
  rw [Nat.zero_add]

/-- Witness for C6 at a concrete two-vector orthonormal corpus. -/
theorem search_roundtrip_witness :
    MovieSearch.searchTop1 (MovieSearch.build_index [[(1 : ℚ), 0], [0, (1 : ℚ)]])
      [0, (1 : ℚ)] = some (1, 1) :=
  search_roundtrip [[(1 : ℚ), 0], [0, (1 : ℚ)]] 2 1 [0, (1 : ℚ)]
    (by decide)
    (by norm_num [MovieSearch.sqNormQ, MovieSearch.innerQ])
    (by decide)
    (by decide)

/-- C7: when the index artifact is absent from the filesystem,
`load_index` returns `none` (its return type makes it total, so no
exception is possible), and in particular it never returns any built
index, not even one built from an empty corpus. -/
theorem load_index_absent (fs : String → Option MovieSearch.FlatIPIndex)
    (h : fs MovieSearch.INDEX_FAISS = none) :
    MovieSearch.load_index fs = none ∧
    ∀ embeddings : List (List ℚ),
      MovieSearch.load_index fs ≠ some (MovieSearch.build_index embeddings) := by
  have hnone : MovieSearch.load_index fs = none := by
    rw [MovieSearch.load_index, h]
  refine ⟨hnone, ?_⟩
  intro embeddings hcontra
  rw [hnone] at hcontra
  exact Option.noConfusion hcontra

/-- Witness for C7 on the empty filesystem. -/
theorem load_index_absent_witness :
    MovieSearch.load_index (fun _ => none) = none ∧
    ∀ embeddings : List (List ℚ),
      MovieSearch.load_index (fun _ => none) ≠
        some (MovieSearch.build_index embeddings) :=
  load_index_absent (fun _ => none) rfl

end Floportop
